import Mathlib

/-!
Verification of the BeatDroid-Flask poster service against its
natural-language specification.

The development shallowly embeds the Python sources:
* `src/spotify.py` — the metadata provider wrapper (`Spotify.get_track`,
  `Spotify.get_album`, `Spotify._format_duration`), with the external
  `spotipy` client, token manager and `datetime` library supplied as an
  explicit environment of oracles, and every outward request recorded in an
  event trace;
* `src/poster.py` — the poster composition engine (`Poster.track`,
  `Poster.album`), likewise over an environment of collaborator outcomes
  and an event trace of the I/O it performs;
* `src/app.py` — the lyrics-substitution step of the track-poster endpoint.

Helpers of the BeatPrints package that the repository imports but does not
vendor under `src/` (`THEMES`, `organize_tracks`, `filename`,
`image.get_theme`) are modelled from the specification and marked as such
in their doc comments.

General recursion in `get_track` (the artist-fallback retry calls itself)
is embedded with an explicit fuel parameter; the behaviours stated below
never exhaust it.
-/

namespace BeatDroid

/-! ## String helpers (Python `in`, `split(sep, 1)`, `strip`) -/

/-- Auxiliary: find the first occurrence of the pattern in the character
list, returning the characters before it and the characters after it. -/
def splitFirstAux (pat : List Char) : List Char → Option (List Char × List Char)
  | [] => if pat.isEmpty then some ([], []) else none
  | c :: rest =>
    if pat.isPrefixOf (c :: rest) then some ([], (c :: rest).drop pat.length)
    else
      match splitFirstAux pat rest with
      | some (a, b) => some (c :: a, b)
      | none => none

/-- Python substring test `pat in s`. -/
def containsSub (s pat : String) : Bool :=
  (splitFirstAux pat.toList s.toList).isSome

/-- Python `s.split(pat, 1)`: the parts before and after the first
occurrence of `pat`, or `none` when `pat` does not occur. -/
def splitFirst (s pat : String) : Option (String × String) :=
  match splitFirstAux pat.toList s.toList with
  | some (a, b) => some (String.mk a, String.mk b)
  | none => none

/-- Python `s.split(pat)[0]`: the part of `s` before the first occurrence
of `pat` (all of `s` when `pat` does not occur). -/
def beforeFirst (s pat : String) : String :=
  match splitFirst s pat with
  | some (a, _) => a
  | none => s

/-- Python `s.strip()`: drop whitespace from both ends. -/
def pyStrip (s : String) : String :=
  String.mk
    (((s.toList.dropWhile Char.isWhitespace).reverse.dropWhile
      Char.isWhitespace).reverse)

/-! ## `src/spotify.py`: duration formatting -/

/-- Python `f"{n:02d}"`: the decimal digits of `n`, left-padded with zeros
to a minimum width of two characters. -/
def pad2 (n : Nat) : String :=
  let s := Nat.repr n
  if s.length < 2 then String.mk (List.replicate (2 - s.length) '0') ++ s else s

/-- `Spotify._format_duration` (src/spotify.py, lines 77-81): milliseconds
to an MM:SS display string. -/
def format_duration (duration_ms : Nat) : String :=
  let minutes := duration_ms / 60000
  let seconds := (duration_ms / 1000) % 60
  pad2 minutes ++ ":" ++ pad2 seconds

/-! ## `src/spotify.py`: data model -/

/-- `TrackMetadata` dataclass (src/spotify.py, lines 19-29). -/
structure TrackMetadata where
  name : String
  artist : String
  album : String
  released : String
  duration : String
  image : String
  label : String
  id : String
  deriving Repr, DecidableEq

/-- `AlbumMetadata` dataclass (src/spotify.py, lines 31-40). -/
structure AlbumMetadata where
  name : String
  artist : String
  released : String
  image : String
  label : String
  id : String
  tracks : List String
  deriving Repr, DecidableEq

/-- One item of the `result["tracks"]["items"]` array returned by the
catalog search, restricted to the fields `get_track` reads. -/
structure TrackItem where
  name : String
  artistName : String
  albumId : String
  albumName : String
  releaseDate : String
  releasePrecision : String
  durationMs : Nat
  imageUrl : String
  id : String
  deriving Repr, DecidableEq

/-- A full album object returned by `self.spotify.album(id)`, restricted
to the fields `get_track` and `get_album` read. -/
structure AlbumObj where
  name : String
  artistName : String
  label : String
  releaseDate : String
  releasePrecision : String
  imageUrl : String
  id : String
  trackNames : List String
  deriving Repr, DecidableEq

/-- Outcome of `self.spotify.search(type="track")`: `invalid` models a
falsy response or one without a `tracks` key (src/spotify.py line 113);
`valid items` models a well-formed response with its item list. -/
inductive SearchResult where
  | invalid
  | valid (items : List TrackItem)
  deriving Repr, DecidableEq

/-- Errors the spotify wrapper can raise: a token-refresh failure escaping
`_ensure_token`, or the `ValueError` of the limit check. -/
inductive SpotError where
  | tokenError
  | valueError (msg : String)
  deriving Repr, DecidableEq

/-- Outward requests issued by the wrapper, in order: the token check, a
track search, an album search, and the album-object fetch. -/
inductive SpotEvent where
  | ensureToken
  | searchT (q : String) (limit : Int)
  | searchA (q : String) (limit : Int)
  | albumFetch (id : String)
  deriving Repr, DecidableEq

/-- Environment of external collaborators of `src/spotify.py`: the spotipy
search/album endpoints, the token manager, and `datetime` date formatting
(`_format_released` delegates to the external `datetime` library, so its
result is an oracle here). -/
structure SpotifyEnv where
  searchTrack : String → Int → SearchResult
  searchAlbum : String → Int → Option (List String)
  albumOf : String → AlbumObj
  tokenOk : Bool
  formatDate : String → String → String

/-- Query reformatting of `get_track` (src/spotify.py, lines 104-108):
a query containing neither `track:` nor `artist:` but containing ` - ` is
rewritten to the advanced `track:"..." artist:"..."` form, splitting at the
first ` - ` and stripping both halves. -/
def formatQuery (query : String) : String :=
  if ¬ containsSub query "track:" ∧ ¬ containsSub query "artist:" then
    match splitFirst query " - " with
    | some (a, b) =>
      "track:\"" ++ pyStrip a ++ "\" artist:\"" ++ pyStrip b ++ "\""
    | none => query
  else query

/-- Metadata construction of `get_track` (src/spotify.py, lines 132-144),
given the found track item and its fetched album object. -/
def buildTrackMetadata (env : SpotifyEnv) (alb : AlbumObj) (item : TrackItem) :
    TrackMetadata :=
  { name := item.name
    artist := item.artistName
    album := item.albumName
    released := env.formatDate item.releaseDate item.releasePrecision
    duration := format_duration item.durationMs
    image := item.imageUrl
    label := if alb.label.length < 35 then alb.label else item.artistName
    id := item.id }

/-- Metadata construction of `get_album` (src/spotify.py, lines 169-180),
given the fetched album object. -/
def buildAlbumMetadata (env : SpotifyEnv) (alb : AlbumObj) : AlbumMetadata :=
  { name := alb.name
    artist := alb.artistName
    released := env.formatDate alb.releaseDate alb.releasePrecision
    image := alb.imageUrl
    label := if alb.label.length < 35 then alb.label else alb.artistName
    id := alb.id
    tracks := alb.trackNames }

/-- `Spotify.get_track` (src/spotify.py, lines 83-150), with an explicit
fuel bound for the artist-fallback recursion of lines 117-124. Returns the
Python result (`None` is `ok none`, a raised error is `error`) together
with the trace of outward requests. -/
def get_track (env : SpotifyEnv) :
    Nat → String → Int → Except SpotError (Option TrackMetadata) × List SpotEvent
  | 0, _, _ => (.ok none, [])
  | fuel + 1, query, limit =>
    if env.tokenOk = false then (.error .tokenError, [.ensureToken])
    else if limit < 1 then
      (.error (.valueError "Limit must be at least 1"), [.ensureToken])
    else
      let q := formatQuery query
      let ev : List SpotEvent := [.ensureToken, .searchT q limit]
      match env.searchTrack q limit with
      | .invalid => (.ok none, ev)
      | .valid [] =>
        if containsSub q "artist:" then
          let r := get_track env fuel (pyStrip (beforeFirst q "artist:")) limit
          (r.1, ev ++ r.2)
        else (.ok none, ev)
      | .valid (item :: _) =>
        let alb := env.albumOf item.albumId
        (.ok (some (buildTrackMetadata env alb item)),
          ev ++ [.albumFetch item.albumId])

/-- `Spotify.get_album` (src/spotify.py, lines 152-182). The search oracle
returns `none` for a falsy response and `some ids` for the id list of
`result["albums"]["items"]`. -/
def get_album (env : SpotifyEnv) (query : String) (limit : Int) :
    Except SpotError (Option AlbumMetadata) × List SpotEvent :=
  if env.tokenOk = false then (.error .tokenError, [.ensureToken])
  else if limit < 1 then
    (.error (.valueError "Limit must be at least 1"), [.ensureToken])
  else
    let ev : List SpotEvent := [.ensureToken, .searchA query limit]
    match env.searchAlbum query limit with
    | none => (.ok none, ev)
    | some [] => (.ok none, ev)
    | some (id0 :: _) =>
      let alb := env.albumOf id0
      (.ok (some (buildAlbumMetadata env alb)), ev ++ [.albumFetch id0])

/-! ## BeatPrints helpers the repository imports but does not vendor -/

/-- Modelled from the spec: `BeatPrints.consts.THEMES`, the fixed
enumerated set of theme names, matched case-sensitively; the spec names
"Light", "Dark", plus catalog-specific accent variants. -/
def THEMES : List String :=
  ["Light", "Dark", "Catppuccin", "Gruvbox", "Nord", "RosePine", "Everforest"]

/-- Modelled from the spec: `BeatPrints.image.get_theme`, a pure lookup
mapping a (valid) theme name to its foreground color and background
template reference; the template image itself is opened later by the
composer. -/
def get_theme (theme : String) : (Nat × Nat × Nat) × String :=
  if theme = "Dark" then ((255, 255, 255), "banner_dark.png")
  else ((0, 0, 0), "banner_" ++ theme ++ ".png")

/-- Modelled from the spec: the character sanitization inside
`BeatPrints.utils.filename` — characters unsafe for filenames (path
separators and other reserved characters) and spaces are replaced by an
underscore, so `"Cigarettes After Sex"` becomes
`"Cigarettes_After_Sex"` and no path-separator survives. -/
def sanitize (s : String) : String :=
  String.mk (s.toList.map fun c =>
    if c = '/' ∨ c = '\\' ∨ c = ':' ∨ c = '*' ∨ c = '?' ∨ c = '"' ∨
        c = '<' ∨ c = '>' ∨ c = '|' ∨ c = ' ' then '_' else c)

/-- Modelled from the spec: `BeatPrints.utils.filename`, deriving the
poster file name `<sanitized-name>_<sanitized-artist>.<ext>` from the
track/album name and the artist, with one fixed encoding extension. -/
def filename (name artist : String) : String :=
  sanitize name ++ "_" ++ sanitize artist ++ ".png"

/-- Joining a directory and a file name, as `pathlib`'s `/` operator does
for a relative right operand. -/
def joinPath (dir fname : String) : String := dir ++ "/" ++ fname

/-- Auxiliary for `chunk`: `cur` is the current column, kept reversed;
a new column opens when appending would push `cur` past the capacity. -/
def chunkAux (capacity : Nat) (cur : List α) : List α → List (List α)
  | [] => if cur.isEmpty then [] else [cur.reverse]
  | x :: xs =>
    if cur.isEmpty ∨ cur.length < capacity then chunkAux capacity (x :: cur) xs
    else cur.reverse :: chunkAux capacity [x] xs

/-- Splitting a list into consecutive chunks of at most `capacity`
elements (at least one element per chunk), preserving order. -/
def chunk (capacity : Nat) (l : List α) : List (List α) :=
  chunkAux capacity [] l

/-- Modelled from the spec: `BeatPrints.utils.organize_tracks`
(the Track-List Packer, spec section 4.5). Tracks are consumed in catalog
order, one per line, opening a new column whenever the current column
would exceed the line-count capacity fixed by the template. With
`indexed = true` every line is prefixed by its 1-based position in the
overall album, zero-padded to the stable width needed by the album length
(at least two digits). Each column's pixel width is the maximum measured
width among its lines, for the supplied deterministic measure. -/
def organize_tracks (measure : String → Nat) (capacity : Nat)
    (tracks : List String) (indexed : Bool) : List (List String) × List Nat :=
  let width := max 2 (Nat.repr tracks.length).length
  let lines :=
    if indexed then
      (List.range tracks.length).zip tracks |>.map fun p =>
        let numeral := Nat.repr (p.1 + 1)
        String.mk (List.replicate (width - numeral.length) '0') ++ numeral
          ++ ". " ++ p.2
    else tracks
  let columns := chunk capacity lines
  (columns, columns.map fun col => (col.map measure).foldr max 0)

/-! ## `src/poster.py`: the poster composition engine -/

/-- Errors a `Poster.track` / `Poster.album` call can raise, one per
fallible step of the pipeline, plus the lyrics collaborator's
`NoLyricsAvailable` (never produced by this engine; it is included so that
its absence is expressible). -/
inductive PosterError where
  | themeNotFound (theme : String)
  | coverUnavailable
  | scannableFailed
  | templateOpenFailed
  | drawFailed
  | mkdirFailed
  | saveFailed
  | noLyricsAvailable
  deriving Repr, DecidableEq

/-- Observable effects of a composition, in program order: the cover
fetch, the scannable-code render, opening the background template, the
in-memory drawing steps, directory creation and the final file save. -/
inductive FsEvent where
  | coverFetch (source : String) (override : Option String)
  | scannable
  | openTemplate (template : String)
  | drawPalette (accent : Bool)
  | drawCommon
  | drawLyrics (lyrics : List String)
  | drawColumn (lines : List String)
  | mkdir (dir : String)
  | save (path : String)
  deriving Repr, DecidableEq

/-- Environment of collaborator outcomes for one composition: whether
each fallible step succeeds, the path-resolution function modelling
`Path(...).expanduser().resolve()`, the text-measure used by the
Track-List Packer, and the template's line-count capacity per column. -/
structure PosterEnv where
  coverOk : Bool
  scannableOk : Bool
  templateOk : Bool
  drawOk : Bool
  mkdirOk : String → Bool
  saveOk : String → Bool
  resolvePath : String → String
  measure : String → Nat
  maxRows : Nat

/-- The directory argument resolution shared by `Poster.track` and
`Poster.album` (src/poster.py lines 59 and 100): Python's
`save_dir or self.save_to` falls back to the configured default both when
`save_dir` is `None` and when it is an empty (falsy) string. -/
def chooseDir (save_dir : Option String) (save_to : String) : String :=
  match save_dir with
  | some s => if s = "" then save_to else s
  | none => save_to

/-- `Poster.track` (src/poster.py, lines 40-75): theme membership check,
theme lookup, cover fetch, scannable render, template open, drawing
(common text, duration, lyrics), directory creation, save. Returns the
Python result (the returned path string or the raised error) with the
trace of effects performed, in order. -/
def Poster.track (env : PosterEnv) (save_to : String) (metadata : TrackMetadata)
    (lyrics : List String) (save_dir : Option String) (accent : Bool)
    (theme : String) (custom_cover : Option String) :
    Except PosterError String × List FsEvent :=
  if ¬ THEMES.contains theme then (.error (.themeNotFound theme), [])
  else
    let ct := get_theme theme
    let ev0 : List FsEvent := [.coverFetch metadata.image custom_cover]
    if env.coverOk = false then (.error .coverUnavailable, ev0)
    else
      let ev1 := ev0 ++ [FsEvent.scannable]
      if env.scannableOk = false then (.error .scannableFailed, ev1)
      else
        let ev2 := ev1 ++ [FsEvent.openTemplate ct.2]
        if env.templateOk = false then (.error .templateOpenFailed, ev2)
        else
          let ev3 := ev2 ++ [FsEvent.drawPalette accent, FsEvent.drawCommon,
            FsEvent.drawLyrics lyrics]
          if env.drawOk = false then (.error .drawFailed, ev3)
          else
            let dir := env.resolvePath (chooseDir save_dir save_to)
            let ev4 := ev3 ++ [FsEvent.mkdir dir]
            if env.mkdirOk dir = false then (.error .mkdirFailed, ev4)
            else
              let path := joinPath dir (filename metadata.name metadata.artist)
              let ev5 := ev4 ++ [FsEvent.save path]
              if env.saveOk path = false then (.error .saveFailed, ev5)
              else (.ok path, ev5)

/-- `Poster.album` (src/poster.py, lines 77-116): identical pipeline to
`Poster.track` until the text stage, where the Track-List Packer output is
drawn column by column (one `write.text` call per packed column) instead
of the lyrics block. -/
def Poster.album (env : PosterEnv) (save_to : String) (metadata : AlbumMetadata)
    (save_dir : Option String) (indexing : Bool) (accent : Bool)
    (theme : String) (custom_cover : Option String) :
    Except PosterError String × List FsEvent :=
  if ¬ THEMES.contains theme then (.error (.themeNotFound theme), [])
  else
    let ct := get_theme theme
    let ev0 : List FsEvent := [.coverFetch metadata.image custom_cover]
    if env.coverOk = false then (.error .coverUnavailable, ev0)
    else
      let ev1 := ev0 ++ [FsEvent.scannable]
      if env.scannableOk = false then (.error .scannableFailed, ev1)
      else
        let ev2 := ev1 ++ [FsEvent.openTemplate ct.2]
        if env.templateOk = false then (.error .templateOpenFailed, ev2)
        else
          let packed := organize_tracks env.measure env.maxRows metadata.tracks indexing
          let ev3 := ev2 ++ [FsEvent.drawPalette accent, FsEvent.drawCommon]
            ++ (packed.1.zip packed.2).map fun cw => FsEvent.drawColumn cw.1
          if env.drawOk = false then (.error .drawFailed, ev3)
          else
            let dir := env.resolvePath (chooseDir save_dir save_to)
            let ev4 := ev3 ++ [FsEvent.mkdir dir]
            if env.mkdirOk dir = false then (.error .mkdirFailed, ev4)
            else
              let path := joinPath dir (filename metadata.name metadata.artist)
              let ev5 := ev4 ++ [FsEvent.save path]
              if env.saveOk path = false then (.error .saveFailed, ev5)
              else (.ok path, ev5)

/-! ## `src/app.py`: lyrics substitution of the track-poster endpoint -/

/-- Outcome of `ly.get_lyrics(track)` as the endpoint observes it: the
collaborator raised `NoLyricsAvailable`, returned a non-list value, or
returned a list of lines. -/
inductive LyricsOutcome where
  | raisedNoLyrics
  | notAList
  | aList (lines : List String)
  deriving Repr, DecidableEq

/-- The lyrics-resolution step of `generate_track_endpoint`
(src/app.py, lines 498-512): a raised `NoLyricsAvailable`, a non-list, an
empty list, or a list whose lines are all blank collapse to the
`"No lyrics available"` placeholder; otherwise blank lines are dropped and
the rest stripped. -/
def lyricsResolve : LyricsOutcome → List String
  | .raisedNoLyrics => ["No lyrics available"]
  | .notAList => ["No lyrics available"]
  | .aList lines =>
    if lines.isEmpty then ["No lyrics available"]
    else
      let cleaned :=
        (lines.filter fun l => ¬ l = "" ∧ ¬ pyStrip l = "").map pyStrip
      if cleaned.isEmpty then ["No lyrics available"] else cleaned

/-- The poster-generation tail of `generate_track_endpoint`
(src/app.py, lines 495-525): the lyrics value passed to `Poster.track` is
always the output of the lyrics-resolution step. -/
def generate_track_endpoint (env : PosterEnv) (save_to : String)
    (metadata : TrackMetadata) (outcome : LyricsOutcome)
    (save_dir : Option String) (accent : Bool) (theme : String)
    (custom_cover : Option String) : Except PosterError String × List FsEvent :=
  Poster.track env save_to metadata (lyricsResolve outcome) save_dir accent
    theme custom_cover

/-! ## Trace observations -/

/-- Number of `save` effects in a trace: how many times the composition
committed bytes to the output file. -/
def countSaves : List FsEvent → Nat
  | [] => 0
  | .save _ :: tr => countSaves tr + 1
  | _ :: tr => countSaves tr

/-- Number of per-column track-list draw effects in a trace. -/
def countColumns (tr : List FsEvent) : Nat :=
  tr.countP fun e => match e with | .drawColumn _ => true | _ => false

/-- Number of track-search requests in a spotify trace. -/
def countSearches (tr : List SpotEvent) : Nat :=
  tr.countP fun e => match e with | .searchT _ _ => true | _ => false

/-! ## Concrete fixtures for witnesses and counterexamples -/

/-- A placeholder album object for oracle slots a scenario never reads. -/
def albumObjBlank : AlbumObj :=
  { name := "", artistName := "", label := "", releaseDate := "",
    releasePrecision := "", imageUrl := "", id := "", trackNames := [] }

/-- A catalog environment whose every track search returns a well-formed
response with zero items and whose token is valid. -/
def spotEnvEmpty : SpotifyEnv :=
  { searchTrack := fun _ _ => .valid []
    searchAlbum := fun _ _ => some []
    albumOf := fun _ => albumObjBlank
    tokenOk := true
    formatDate := fun _ _ => "" }

/-- A concrete search item, taken from the sample record in src/test.py. -/
def itemNight : TrackItem :=
  { name := "The Night We Met", artistName := "Lord Huron",
    albumId := "albStrangeTrails", albumName := "Strange Trails",
    releaseDate := "2015-04-06", releasePrecision := "day",
    durationMs := 208000,
    imageUrl := "https://i.scdn.co/image/ab67616d0000b27317875a0610c23d8946454583",
    id := "3hRV0jL3vUpRrcy398teAU" }

/-- A concrete album object whose label has 35 or more characters. -/
def albLongLabel : AlbumObj :=
  { name := "Strange Trails", artistName := "Lord Huron",
    label := "An Extremely Long Record Label Name Past The Cap",
    releaseDate := "2015-04-06", releasePrecision := "day",
    imageUrl := "https://i.scdn.co/image/ab67616d0000b27317875a0610c23d8946454583",
    id := "albStrangeTrails",
    trackNames := ["Love Like Ghosts", "Until The Night Turns"] }

/-- A catalog environment whose searches find `itemNight` and whose album
endpoint returns `albLongLabel`. -/
def spotEnvFound : SpotifyEnv :=
  { searchTrack := fun _ _ => .valid [itemNight]
    searchAlbum := fun _ _ => some ["albStrangeTrails"]
    albumOf := fun _ => albLongLabel
    tokenOk := true
    formatDate := fun _ _ => "April 06, 2015" }

/-- A composition environment in which every collaborator step succeeds,
paths resolve to themselves, text measures by character count, and the
template packs three lines per column. -/
def postEnvOk : PosterEnv :=
  { coverOk := true, scannableOk := true, templateOk := true, drawOk := true,
    mkdirOk := fun _ => true, saveOk := fun _ => true,
    resolvePath := fun s => s, measure := String.length, maxRows := 3 }

/-- A composition environment whose cover fetch fails. -/
def postEnvNoCover : PosterEnv :=
  { postEnvOk with coverOk := false }

/-- Concrete track metadata, taken from the sample record in src/test.py. -/
def mdApocalypse : TrackMetadata :=
  { name := "Apocalypse", artist := "Cigarettes After Sex",
    album := "Cigarettes After Sex", released := "June 09, 2017",
    duration := "04:50",
    image := "https://i.scdn.co/image/ab67616d0000b273dfed999f959177dfc4f33cdc",
    label := "Partisan Records", id := "1oAwsWBovWRIp7qLMGPIet" }

/-- Concrete album metadata with an empty track list. -/
def mdEmptyAlbum : AlbumMetadata :=
  { name := "Strange Trails", artist := "Lord Huron",
    released := "April 06, 2015",
    image := "https://i.scdn.co/image/ab67616d0000b27317875a0610c23d8946454583",
    label := "Play It Again Sam", id := "albStrangeTrails", tracks := [] }

/-! ## Theorems -/

/-- Helper: Python zero-padding to width two yields exactly two characters
for any value below 100. -/
theorem pad2_length_two : ∀ n : Nat, n < 100 → (pad2 n).length = 2 := by decide

/-- C8: for every nonnegative `duration_ms`, `_format_duration` returns
minutes `duration_ms / 60000` and seconds `(duration_ms / 1000) % 60`,
each zero-padded to two digits and joined by a colon; the seconds value is
always below 60, and below 100 minutes both fields are exactly two
characters wide, the whole string spanning five characters. -/
theorem C8_format_duration (ms : Nat) :
    format_duration ms = pad2 (ms / 60000) ++ ":" ++ pad2 ((ms / 1000) % 60) ∧
    (ms / 1000) % 60 < 60 ∧
    (ms < 6000000 →
      (pad2 (ms / 60000)).length = 2 ∧ (pad2 ((ms / 1000) % 60)).length = 2 ∧
      (format_duration ms).length = 5) := by
  refine ⟨rfl, Nat.mod_lt _ (by norm_num), fun h => ?_⟩
  have hm : (pad2 (ms / 60000)).length = 2 := pad2_length_two _ (by omega)
  have hs : (pad2 ((ms / 1000) % 60)).length = 2 :=
    pad2_length_two _ (lt_trans (Nat.mod_lt _ (by norm_num)) (by norm_num))
  refine ⟨hm, hs, ?_⟩
  simp only [format_duration, String.length_append, hm, hs]
  decide

/-- C8 witness: at 290000 ms (the 04:50 sample track of src/test.py) the
field bounds hold. -/
theorem C8_format_duration_witness :
    (pad2 (290000 / 60000)).length = 2 ∧ (pad2 ((290000 / 1000) % 60)).length = 2 ∧
    (format_duration 290000).length = 5 :=
  (C8_format_duration 290000).2.2 (by norm_num)

/-- C4: packing the five tracks A..E with indexing and a column capacity
of three lines yields exactly two columns whose lines begin with "01.",
"02.", "03." and "04.", "05." — the 1-based position in the overall album,
zero-padded to a stable two-digit width, for any text measure. -/
theorem C4_pack_indexed (m : String → Nat) :
    (organize_tracks m 3 ["A", "B", "C", "D", "E"] true).1.length = 2 ∧
    (organize_tracks m 3 ["A", "B", "C", "D", "E"] true).1.map
        (fun col => col.map fun l => l.take 3) =
      [["01.", "02.", "03."], ["04.", "05."]] := ⟨rfl, rfl⟩

/-- C5: the Track-List Packer yields zero columns and zero widths on an
empty track list, and an album composition whose metadata has no tracks
still completes: it draws zero track columns and proceeds to a successful
save at the derived path. -/
theorem C5_empty_tracks :
    (∀ (m : String → Nat) (cap : Nat) (idx : Bool),
      organize_tracks m cap [] idx = ([], [])) ∧
    ∀ (env : PosterEnv) (save_to : String) (md : AlbumMetadata)
      (save_dir : Option String) (indexing accent : Bool) (theme : String)
      (cover : Option String),
      md.tracks = [] → THEMES.contains theme = true →
      env.coverOk = true → env.scannableOk = true → env.templateOk = true →
      env.drawOk = true →
      env.mkdirOk (env.resolvePath (chooseDir save_dir save_to)) = true →
      env.saveOk (joinPath (env.resolvePath (chooseDir save_dir save_to))
        (filename md.name md.artist)) = true →
      (Poster.album env save_to md save_dir indexing accent theme cover).1 =
        .ok (joinPath (env.resolvePath (chooseDir save_dir save_to))
          (filename md.name md.artist)) ∧
      countColumns
        (Poster.album env save_to md save_dir indexing accent theme cover).2 = 0 ∧
      FsEvent.save (joinPath (env.resolvePath (chooseDir save_dir save_to))
          (filename md.name md.artist)) ∈
        (Poster.album env save_to md save_dir indexing accent theme cover).2 := by
  constructor
  · intro m cap idx; cases idx <;> rfl
  · intro env save_to md save_dir indexing accent theme cover htr hth hc hs ht hd hm hsv
    have hpack : organize_tracks env.measure env.maxRows md.tracks indexing =
        ([], []) := by
      rw [htr]; cases indexing <;> rfl
    have hmem : theme ∈ THEMES := by simpa using hth
    simp [Poster.album, hmem, hc, hs, ht, hd, hm, hsv, hpack, countColumns]

/-- C5 witness: the all-success environment over the concrete empty album
renders, draws no track column, and saves. -/
theorem C5_empty_tracks_witness :
    (Poster.album postEnvOk "/posters" mdEmptyAlbum none false false "Light"
        none).1 =
      .ok (joinPath (postEnvOk.resolvePath (chooseDir none "/posters"))
        (filename mdEmptyAlbum.name mdEmptyAlbum.artist)) ∧
    countColumns
      (Poster.album postEnvOk "/posters" mdEmptyAlbum none false false "Light"
        none).2 = 0 ∧
    FsEvent.save (joinPath (postEnvOk.resolvePath (chooseDir none "/posters"))
        (filename mdEmptyAlbum.name mdEmptyAlbum.artist)) ∈
      (Poster.album postEnvOk "/posters" mdEmptyAlbum none false false "Light"
        none).2 :=
  C5_empty_tracks.2 postEnvOk "/posters" mdEmptyAlbum none false false "Light"
    none rfl rfl rfl rfl rfl rfl rfl rfl

/-- C1: `track()` and `album()` raise `ThemeNotFoundError` exactly when the
theme is not a (case-sensitive) member of the fixed `THEMES` set, and a
theme failure happens before any effect: the trace is empty, so no cover
fetch or template open was attempted. -/
theorem C1_theme_gate (env : PosterEnv) (save_to : String) (mdT : TrackMetadata)
    (mdA : AlbumMetadata) (lyrics : List String) (save_dir : Option String)
    (indexing accent : Bool) (theme : String) (cover : Option String) :
    ((Poster.track env save_to mdT lyrics save_dir accent theme cover).1 =
        .error (.themeNotFound theme) ↔ THEMES.contains theme = false) ∧
    ((Poster.album env save_to mdA save_dir indexing accent theme cover).1 =
        .error (.themeNotFound theme) ↔ THEMES.contains theme = false) ∧
    (THEMES.contains theme = false →
      (Poster.track env save_to mdT lyrics save_dir accent theme cover).2 = [] ∧
      (Poster.album env save_to mdA save_dir indexing accent theme cover).2 =
        []) := by
  by_cases hth : THEMES.contains theme = true
  · have hmem : theme ∈ THEMES := by simpa using hth
    have htrk : (Poster.track env save_to mdT lyrics save_dir accent theme
        cover).1 ≠ .error (.themeNotFound theme) := by
      cases hc : env.coverOk <;> cases hs : env.scannableOk <;>
        cases ht : env.templateOk <;> cases hd : env.drawOk <;>
        cases hm : env.mkdirOk (env.resolvePath (chooseDir save_dir save_to)) <;>
        cases hsv : env.saveOk (joinPath (env.resolvePath
          (chooseDir save_dir save_to)) (filename mdT.name mdT.artist)) <;>
        simp [Poster.track, hmem, hc, hs, ht, hd, hm, hsv]
    have halb : (Poster.album env save_to mdA save_dir indexing accent theme
        cover).1 ≠ .error (.themeNotFound theme) := by
      cases hc : env.coverOk <;> cases hs : env.scannableOk <;>
        cases ht : env.templateOk <;> cases hd : env.drawOk <;>
        cases hm : env.mkdirOk (env.resolvePath (chooseDir save_dir save_to)) <;>
        cases hsv : env.saveOk (joinPath (env.resolvePath
          (chooseDir save_dir save_to)) (filename mdA.name mdA.artist)) <;>
        simp [Poster.album, hmem, hc, hs, ht, hd, hm, hsv]
    refine ⟨⟨fun h => absurd h htrk, fun h => ?_⟩,
      ⟨fun h => absurd h halb, fun h => ?_⟩, fun h => ?_⟩ <;>
      (rw [h] at hth; exact absurd hth (by decide))
  · have hf : THEMES.contains theme = false := by simpa using hth
    have hnm : theme ∉ THEMES := by simpa using hth
    refine ⟨⟨fun _ => hf, fun _ => ?_⟩, ⟨fun _ => hf, fun _ => ?_⟩, fun _ => ?_⟩ <;>
      simp [Poster.track, Poster.album, hnm]

/-- C1 witness: for the unknown theme "Bogus" both compositions raise the
theme error with an empty trace. -/
theorem C1_theme_gate_witness :
    (Poster.track postEnvOk "/posters" mdApocalypse [] none false "Bogus"
        none).2 = [] ∧
    (Poster.album postEnvOk "/posters" mdEmptyAlbum none false false "Bogus"
        none).2 = [] :=
  (C1_theme_gate postEnvOk "/posters" mdApocalypse mdEmptyAlbum [] none false
    false "Bogus" none).2.2 rfl

/-- Helper: `countSaves` distributes over list concatenation. -/
theorem countSaves_append (a b : List FsEvent) :
    countSaves (a ++ b) = countSaves a + countSaves b := by
  induction a with
  | nil => simp [countSaves]
  | cons x t ih => cases x <;> simp [countSaves, ih] <;> omega

/-- Helper: a run of per-column draw effects contains no save. -/
theorem countSaves_map_drawColumn (l : List (List String × Nat)) :
    countSaves (l.map fun cw => FsEvent.drawColumn cw.1) = 0 := by
  induction l with
  | nil => rfl
  | cons x t ih => simp [countSaves, ih]

/-- C2 counterexample: `save_dir` is supplied as the empty string, yet the
poster is saved under the configured default directory, not under the
resolution of the supplied argument — Python's `save_dir or self.save_to`
treats a falsy (empty) `save_dir` as absent. -/
theorem C2_counterexample :
    (Poster.track postEnvOk "/posters" mdApocalypse [] (some "") false "Light"
        none).1 = .ok "/posters/Apocalypse_Cigarettes_After_Sex.png" ∧
    "/posters/Apocalypse_Cigarettes_After_Sex.png" ≠
      joinPath (postEnvOk.resolvePath "")
        (filename mdApocalypse.name mdApocalypse.artist) := by
  exact ⟨rfl, by decide⟩

/-- C2 (amended): on success the returned path is exactly the resolved
effective directory — the `save_dir` argument when supplied and non-empty,
otherwise the configured default `save_to` — joined with the sanitized
filename derived from the metadata name and artist; the trace creates that
directory and saves at that path, and the path depends only on the name,
the artist and the effective directory. -/
theorem C2_output_path (env : PosterEnv) (save_to : String)
    (mdT : TrackMetadata) (mdA : AlbumMetadata) (lyrics : List String)
    (save_dir : Option String) (indexing accent : Bool) (theme : String)
    (cover : Option String) (p q : String) :
    ((Poster.track env save_to mdT lyrics save_dir accent theme cover).1 =
        .ok p →
      p = joinPath (env.resolvePath (chooseDir save_dir save_to))
        (filename mdT.name mdT.artist) ∧
      FsEvent.mkdir (env.resolvePath (chooseDir save_dir save_to)) ∈
        (Poster.track env save_to mdT lyrics save_dir accent theme cover).2 ∧
      FsEvent.save p ∈
        (Poster.track env save_to mdT lyrics save_dir accent theme cover).2) ∧
    ((Poster.album env save_to mdA save_dir indexing accent theme cover).1 =
        .ok q →
      q = joinPath (env.resolvePath (chooseDir save_dir save_to))
        (filename mdA.name mdA.artist) ∧
      FsEvent.mkdir (env.resolvePath (chooseDir save_dir save_to)) ∈
        (Poster.album env save_to mdA save_dir indexing accent theme cover).2 ∧
      FsEvent.save q ∈
        (Poster.album env save_to mdA save_dir indexing accent theme cover).2) := by
  by_cases hmem : theme ∈ THEMES
  · constructor
    · cases hc : env.coverOk <;> cases hs : env.scannableOk <;>
        cases ht : env.templateOk <;> cases hd : env.drawOk <;>
        cases hm : env.mkdirOk (env.resolvePath (chooseDir save_dir save_to)) <;>
        cases hsv : env.saveOk (joinPath (env.resolvePath
          (chooseDir save_dir save_to)) (filename mdT.name mdT.artist)) <;>
        simp [Poster.track, hmem, hc, hs, ht, hd, hm, hsv] <;>
        (intro h; subst h; simp)
    · cases hc : env.coverOk <;> cases hs : env.scannableOk <;>
        cases ht : env.templateOk <;> cases hd : env.drawOk <;>
        cases hm : env.mkdirOk (env.resolvePath (chooseDir save_dir save_to)) <;>
        cases hsv : env.saveOk (joinPath (env.resolvePath
          (chooseDir save_dir save_to)) (filename mdA.name mdA.artist)) <;>
        simp [Poster.album, hmem, hc, hs, ht, hd, hm, hsv] <;>
        (intro h; subst h; simp)
  · constructor <;> (intro h; simp [Poster.track, Poster.album, hmem] at h)

/-- C2 witness: the all-success environment saves the concrete track and
album posters at the derived paths, which carry the expected events. -/
theorem C2_output_path_witness :
    ("/posters/Apocalypse_Cigarettes_After_Sex.png" =
      joinPath (postEnvOk.resolvePath (chooseDir none "/posters"))
        (filename mdApocalypse.name mdApocalypse.artist) ∧
    FsEvent.mkdir (postEnvOk.resolvePath (chooseDir none "/posters")) ∈
      (Poster.track postEnvOk "/posters" mdApocalypse [] none false "Light"
        none).2 ∧
    FsEvent.save "/posters/Apocalypse_Cigarettes_After_Sex.png" ∈
      (Poster.track postEnvOk "/posters" mdApocalypse [] none false "Light"
        none).2) ∧
    ("/posters/Strange_Trails_Lord_Huron.png" =
      joinPath (postEnvOk.resolvePath (chooseDir none "/posters"))
        (filename mdEmptyAlbum.name mdEmptyAlbum.artist) ∧
    FsEvent.mkdir (postEnvOk.resolvePath (chooseDir none "/posters")) ∈
      (Poster.album postEnvOk "/posters" mdEmptyAlbum none false false "Light"
        none).2 ∧
    FsEvent.save "/posters/Strange_Trails_Lord_Huron.png" ∈
      (Poster.album postEnvOk "/posters" mdEmptyAlbum none false false "Light"
        none).2) :=
  ⟨(C2_output_path postEnvOk "/posters" mdApocalypse mdEmptyAlbum [] none
      false false "Light" none
      "/posters/Apocalypse_Cigarettes_After_Sex.png"
      "/posters/Strange_Trails_Lord_Huron.png").1 rfl,
   (C2_output_path postEnvOk "/posters" mdApocalypse mdEmptyAlbum [] none
      false false "Light" none
      "/posters/Apocalypse_Cigarettes_After_Sex.png"
      "/posters/Strange_Trails_Lord_Huron.png").2 rfl⟩

set_option maxHeartbeats 1600000 in
/-- C3: an error raised at any step before the final save leaves the trace
with zero save effects — no poster file is written — and every composition
performs at most one save, the single commit point. -/
theorem C3_single_commit (env : PosterEnv) (save_to : String)
    (mdT : TrackMetadata) (mdA : AlbumMetadata) (lyrics : List String)
    (save_dir : Option String) (indexing accent : Bool) (theme : String)
    (cover : Option String) (e f : PosterError) :
    ((Poster.track env save_to mdT lyrics save_dir accent theme cover).1 =
        .error e → e ≠ .saveFailed →
      countSaves
        (Poster.track env save_to mdT lyrics save_dir accent theme cover).2 =
        0) ∧
    ((Poster.album env save_to mdA save_dir indexing accent theme cover).1 =
        .error f → f ≠ .saveFailed →
      countSaves
        (Poster.album env save_to mdA save_dir indexing accent theme cover).2 =
        0) ∧
    countSaves
      (Poster.track env save_to mdT lyrics save_dir accent theme cover).2 ≤ 1 ∧
    countSaves
      (Poster.album env save_to mdA save_dir indexing accent theme cover).2 ≤
      1 := by
  by_cases hmem : theme ∈ THEMES
  · have h1 : ((Poster.track env save_to mdT lyrics save_dir accent theme
        cover).1 = .error e → e ≠ .saveFailed →
        countSaves (Poster.track env save_to mdT lyrics save_dir accent theme
          cover).2 = 0) ∧
        countSaves (Poster.track env save_to mdT lyrics save_dir accent theme
          cover).2 ≤ 1 := by
      cases hc : env.coverOk <;> cases hs : env.scannableOk <;>
        cases ht : env.templateOk <;> cases hd : env.drawOk <;>
        cases hm : env.mkdirOk (env.resolvePath (chooseDir save_dir save_to)) <;>
        cases hsv : env.saveOk (joinPath (env.resolvePath
          (chooseDir save_dir save_to)) (filename mdT.name mdT.artist)) <;>
        simp [Poster.track, hmem, hc, hs, ht, hd, hm, hsv, countSaves] <;>
        (try exact fun h => h.symm)
    have h2 : ((Poster.album env save_to mdA save_dir indexing accent theme
        cover).1 = .error f → f ≠ .saveFailed →
        countSaves (Poster.album env save_to mdA save_dir indexing accent theme
          cover).2 = 0) ∧
        countSaves (Poster.album env save_to mdA save_dir indexing accent theme
          cover).2 ≤ 1 := by
      cases hc : env.coverOk <;> cases hs : env.scannableOk <;>
        cases ht : env.templateOk <;> cases hd : env.drawOk <;>
        cases hm : env.mkdirOk (env.resolvePath (chooseDir save_dir save_to)) <;>
        cases hsv : env.saveOk (joinPath (env.resolvePath
          (chooseDir save_dir save_to)) (filename mdA.name mdA.artist)) <;>
        simp [Poster.album, hmem, hc, hs, ht, hd, hm, hsv, countSaves,
          countSaves_append, countSaves_map_drawColumn] <;>
        (try exact fun h => h.symm)
    exact ⟨h1.1, h2.1, h1.2, h2.2⟩
  · refine ⟨?_, ?_, ?_, ?_⟩ <;>
      simp [Poster.track, Poster.album, hmem, countSaves]

/-- C3 witness: a failing cover fetch aborts the track composition with
zero save effects. -/
theorem C3_single_commit_witness :
    countSaves (Poster.track postEnvNoCover "/posters" mdApocalypse [] none
      false "Light" none).2 = 0 :=
  (C3_single_commit postEnvNoCover "/posters" mdApocalypse mdEmptyAlbum []
    none false false "Light" none .coverUnavailable .coverUnavailable).1
    rfl (by decide)

/-- C7: the composition engine never raises `NoLyricsAvailable` — no
`Poster.track` outcome is that error — and the endpoint always invokes
`track()` with the lyrics value produced by its substitution step, which is
never empty and is the "No lyrics available" placeholder whenever the
lyrics collaborator raised, returned a non-list, or returned no usable
lines. -/
theorem C7_lyrics_substitution :
    (∀ (env : PosterEnv) (save_to : String) (md : TrackMetadata)
        (lyrics : List String) (save_dir : Option String) (accent : Bool)
        (theme : String) (cover : Option String),
      (Poster.track env save_to md lyrics save_dir accent theme cover).1 ≠
        .error .noLyricsAvailable) ∧
    (∀ outcome : LyricsOutcome, lyricsResolve outcome ≠ []) ∧
    lyricsResolve .raisedNoLyrics = ["No lyrics available"] ∧
    lyricsResolve .notAList = ["No lyrics available"] ∧
    lyricsResolve (.aList []) = ["No lyrics available"] ∧
    ∀ (env : PosterEnv) (save_to : String) (md : TrackMetadata)
      (outcome : LyricsOutcome) (save_dir : Option String) (accent : Bool)
      (theme : String) (cover : Option String),
      generate_track_endpoint env save_to md outcome save_dir accent theme
        cover =
      Poster.track env save_to md (lyricsResolve outcome) save_dir accent
        theme cover := by
  refine ⟨?_, ?_, rfl, rfl, rfl, fun _ _ _ _ _ _ _ _ => rfl⟩
  · intro env save_to md lyrics save_dir accent theme cover
    by_cases hmem : theme ∈ THEMES
    · cases hc : env.coverOk <;> cases hs : env.scannableOk <;>
        cases ht : env.templateOk <;> cases hd : env.drawOk <;>
        cases hm : env.mkdirOk (env.resolvePath (chooseDir save_dir save_to)) <;>
        cases hsv : env.saveOk (joinPath (env.resolvePath
          (chooseDir save_dir save_to)) (filename md.name md.artist)) <;>
        simp [Poster.track, hmem, hc, hs, ht, hd, hm, hsv]
    · simp [Poster.track, hmem]
  · intro outcome
    cases outcome with
    | raisedNoLyrics => simp [lyricsResolve]
    | notAList => simp [lyricsResolve]
    | aList lines =>
      simp only [lyricsResolve]
      split
      · simp
      · split
        · simp
        · next h => exact fun hnil => h (by rw [hnil]; rfl)

/-- C7 witness: the endpoint-substituted placeholder list is accepted by
the engine without a lyrics error. -/
theorem C7_lyrics_substitution_witness :
    (Poster.track postEnvOk "/posters" mdApocalypse ["No lyrics available"]
      none false "Light" none).1 ≠ .error .noLyricsAvailable :=
  C7_lyrics_substitution.1 postEnvOk "/posters" mdApocalypse
    ["No lyrics available"] none false "Light" none

/-- C6 counterexample: the plain query "A - B" does not contain "artist:",
yet with a catalog whose every search returns zero items `get_track`
issues a second, fallback search instead of returning `None` after one —
the reformatting step first rewrites the query into the advanced form,
which does contain "artist:" and therefore triggers the retry. -/
theorem C6_counterexample :
    containsSub "A - B" "artist:" = false ∧
    (get_track spotEnvEmpty 5 "A - B" 1).1 = .ok none ∧
    countSearches (get_track spotEnvEmpty 5 "A - B" 1).2 = 2 :=
  ⟨rfl, rfl, rfl⟩

/-- C6 (amended): the artist-fallback decision is taken on the effective
query, after the ` - ` reformatting step. When the effective query contains
"artist:" and its search returns zero items, `get_track` performs exactly
the recursive retry on the trimmed sub-query preceding "artist:" (that
retry is itself subject to the same reformat-and-retry rule, so a second
fallback search can occur) and returns that retry's result; when the
effective query does not contain "artist:" and its search returns zero
items, it returns `None` after that single search. -/
theorem C6_artist_fallback (env : SpotifyEnv) (q : String) (limit : Int)
    (fuel : Nat) (htok : env.tokenOk = true) (hl : 1 ≤ limit)
    (hsearch : env.searchTrack (formatQuery q) limit = .valid []) :
    (containsSub (formatQuery q) "artist:" = true →
      get_track env (fuel + 1) q limit =
        ((get_track env fuel (pyStrip (beforeFirst (formatQuery q) "artist:"))
            limit).1,
          [.ensureToken, .searchT (formatQuery q) limit] ++
            (get_track env fuel (pyStrip (beforeFirst (formatQuery q) "artist:"))
              limit).2)) ∧
    (containsSub (formatQuery q) "artist:" = false →
      get_track env (fuel + 1) q limit =
        (.ok none, [.ensureToken, .searchT (formatQuery q) limit])) := by
  have hnl : ¬ limit < 1 := by omega
  constructor <;> intro hart <;> simp [get_track, htok, hnl, hsearch, hart]

/-- C6 witness: the fallback unfolding at a concrete advanced query over
the empty catalog. -/
theorem C6_artist_fallback_witness :
    get_track spotEnvEmpty 2 "track:\"X\" artist:\"Y\"" 1 =
      ((get_track spotEnvEmpty 1
          (pyStrip (beforeFirst (formatQuery "track:\"X\" artist:\"Y\"") "artist:"))
          1).1,
        [.ensureToken, .searchT (formatQuery "track:\"X\" artist:\"Y\"") 1] ++
          (get_track spotEnvEmpty 1
            (pyStrip (beforeFirst (formatQuery "track:\"X\" artist:\"Y\"") "artist:"))
            1).2) :=
  (C6_artist_fallback spotEnvEmpty "track:\"X\" artist:\"Y\"" 1 1 rfl
    (by norm_num) rfl).1 rfl

/-- Helper: with a valid token and a limit of at least one, `get_track`
never raises the limit `ValueError`, at any recursion depth. -/
theorem get_track_limit_passes (env : SpotifyEnv) (htok : env.tokenOk = true) :
    ∀ (fuel : Nat) (q : String) (limit : Int), 1 ≤ limit →
      (get_track env fuel q limit).1 ≠
        .error (.valueError "Limit must be at least 1") := by
  intro fuel
  induction fuel with
  | zero => intro q limit hl; simp [get_track]
  | succ n ih =>
    intro q limit hl
    have hnl : ¬ limit < 1 := by omega
    cases hres : env.searchTrack (formatQuery q) limit with
    | invalid => simp [get_track, htok, hnl, hres]
    | valid items =>
      cases items with
      | nil =>
        by_cases hart : containsSub (formatQuery q) "artist:" = true
        · simp only [get_track, htok, hnl, hres, hart]
          simp
          exact ih _ _ hl
        · simp [get_track, htok, hnl, hres, hart]
      | cons it rest => simp [get_track, htok, hnl, hres]

/-- C9: with a valid token, a limit below one makes both `get_track` and
`get_album` raise the limit `ValueError` with only the token check in the
trace — no search request is issued — while any limit of at least one
passes the check; and a failing token check preempts the limit validation
in both operations. -/
theorem C9_limit_validation (env : SpotifyEnv) (q : String) (limit : Int)
    (fuel : Nat) :
    (env.tokenOk = true → limit < 1 →
      get_track env (fuel + 1) q limit =
        (.error (.valueError "Limit must be at least 1"), [.ensureToken]) ∧
      get_album env q limit =
        (.error (.valueError "Limit must be at least 1"), [.ensureToken])) ∧
    (env.tokenOk = true → 1 ≤ limit →
      (get_track env fuel q limit).1 ≠
        .error (.valueError "Limit must be at least 1") ∧
      (get_album env q limit).1 ≠
        .error (.valueError "Limit must be at least 1")) ∧
    (env.tokenOk = false →
      get_track env (fuel + 1) q limit = (.error .tokenError, [.ensureToken]) ∧
      get_album env q limit = (.error .tokenError, [.ensureToken])) := by
  refine ⟨fun htok hlim => ⟨?_, ?_⟩, fun htok hlim => ⟨?_, ?_⟩,
    fun htok => ⟨?_, ?_⟩⟩
  · simp [get_track, htok, hlim]
  · simp [get_album, htok, hlim]
  · exact get_track_limit_passes env htok fuel q limit hlim
  · have hnl : ¬ limit < 1 := by omega
    cases hres : env.searchAlbum q limit with
    | none => simp [get_album, htok, hnl, hres]
    | some ids => cases ids <;> simp [get_album, htok, hnl, hres]
  · simp [get_track, htok]
  · simp [get_album, htok]

/-- C9 witness: at a zero limit both operations raise after only the token
check; at limit one neither raises the limit error. -/
theorem C9_limit_validation_witness :
    (get_track spotEnvEmpty 1 "q" 0 =
        (.error (.valueError "Limit must be at least 1"), [.ensureToken]) ∧
      get_album spotEnvEmpty "q" 0 =
        (.error (.valueError "Limit must be at least 1"), [.ensureToken])) ∧
    ((get_track spotEnvEmpty 1 "q" 1).1 ≠
        .error (.valueError "Limit must be at least 1") ∧
      (get_album spotEnvEmpty "q" 1).1 ≠
        .error (.valueError "Limit must be at least 1")) :=
  ⟨(C9_limit_validation spotEnvEmpty "q" 0 0).1 rfl (by norm_num),
   (C9_limit_validation spotEnvEmpty "q" 1 1).2.1 rfl (by norm_num)⟩

/-- Helper: any metadata record `get_track` returns was built by
`buildTrackMetadata` from an item a search actually returned, paired with
its fetched album object `env.albumOf item.albumId`. -/
theorem get_track_ok_shape (env : SpotifyEnv) :
    ∀ (fuel : Nat) (q : String) (limit : Int) (md : TrackMetadata),
      (get_track env fuel q limit).1 = .ok (some md) →
      ∃ q2 item rest, env.searchTrack q2 limit = .valid (item :: rest) ∧
        md = buildTrackMetadata env (env.albumOf item.albumId) item := by
  intro fuel
  induction fuel with
  | zero => intro q limit md h; simp [get_track] at h
  | succ n ih =>
    intro q limit md h
    cases htok : env.tokenOk with
    | false => simp [get_track, htok] at h
    | true =>
      by_cases hlim : limit < 1
      · simp [get_track, htok, hlim] at h
      · cases hres : env.searchTrack (formatQuery q) limit with
        | invalid => simp [get_track, htok, hlim, hres] at h
        | valid items =>
          cases items with
          | nil =>
            by_cases hart : containsSub (formatQuery q) "artist:" = true
            · simp only [get_track, htok, hlim, hres, hart] at h
              simp at h
              exact ih _ _ _ h
            · simp [get_track, htok, hlim, hres, hart] at h
          | cons it rest =>
            simp [get_track, htok, hlim, hres] at h
            exact ⟨formatQuery q, it, rest, hres, h.symm⟩

/-- C10: every metadata record `get_track` or `get_album` constructs comes
from a fetched catalog album object — `env.albumOf` at the found search
item's album id, respectively at the first searched album id — and takes
its label from that fetched album's label exactly when it is shorter than
35 characters, and otherwise silently from the primary artist's name, so a
35-or-more-character album label never reaches the metadata. -/
theorem C10_label_fallback (env : SpotifyEnv) (fuel : Nat) (q : String)
    (limit : Int) (md : TrackMetadata) (amd : AlbumMetadata) :
    ((get_track env fuel q limit).1 = .ok (some md) →
      ∃ q2 item rest, env.searchTrack q2 limit = .valid (item :: rest) ∧
        md = buildTrackMetadata env (env.albumOf item.albumId) item ∧
        ((env.albumOf item.albumId).label.length < 35 →
          md.label = (env.albumOf item.albumId).label) ∧
        (35 ≤ (env.albumOf item.albumId).label.length →
          md.label = item.artistName)) ∧
    ((get_album env q limit).1 = .ok (some amd) →
      ∃ id0 rest, env.searchAlbum q limit = some (id0 :: rest) ∧
        amd = buildAlbumMetadata env (env.albumOf id0) ∧
        ((env.albumOf id0).label.length < 35 →
          amd.label = (env.albumOf id0).label) ∧
        (35 ≤ (env.albumOf id0).label.length →
          amd.label = (env.albumOf id0).artistName)) := by
  constructor
  · intro h
    obtain ⟨q2, item, rest, hse, hmd⟩ :=
      get_track_ok_shape env fuel q limit md h
    refine ⟨q2, item, rest, hse, hmd, fun hlt => ?_, fun hge => ?_⟩
    · subst hmd; simp [buildTrackMetadata, hlt]
    · have hnlt : ¬ (env.albumOf item.albumId).label.length < 35 := by omega
      subst hmd; simp [buildTrackMetadata, hnlt]
  · intro h
    cases htok : env.tokenOk with
    | false => simp [get_album, htok] at h
    | true =>
      by_cases hlim : limit < 1
      · simp [get_album, htok, hlim] at h
      · cases hres : env.searchAlbum q limit with
        | none => simp [get_album, htok, hlim, hres] at h
        | some ids =>
          cases ids with
          | nil => simp [get_album, htok, hlim, hres] at h
          | cons id0 rest =>
            simp [get_album, htok, hlim, hres] at h
            refine ⟨id0, rest, rfl, h.symm, fun hlt => ?_, fun hge => ?_⟩
            · rw [← h]; simp [buildAlbumMetadata, hlt]
            · have hnlt : ¬ (env.albumOf id0).label.length < 35 := by omega
              rw [← h]; simp [buildAlbumMetadata, hnlt]

/-- C10 witness: a concrete catalog whose fetched album label has 35 or
more characters yields metadata labelled by the artist name instead. -/
theorem C10_label_fallback_witness :
    (∃ q2 item rest,
      spotEnvFound.searchTrack q2 1 = .valid (item :: rest) ∧
      buildTrackMetadata spotEnvFound albLongLabel itemNight =
        buildTrackMetadata spotEnvFound
          (spotEnvFound.albumOf item.albumId) item ∧
      ((spotEnvFound.albumOf item.albumId).label.length < 35 →
        (buildTrackMetadata spotEnvFound albLongLabel itemNight).label =
          (spotEnvFound.albumOf item.albumId).label) ∧
      (35 ≤ (spotEnvFound.albumOf item.albumId).label.length →
        (buildTrackMetadata spotEnvFound albLongLabel itemNight).label =
          item.artistName)) ∧
    ∃ id0 rest, spotEnvFound.searchAlbum "q" 1 = some (id0 :: rest) ∧
      buildAlbumMetadata spotEnvFound albLongLabel =
        buildAlbumMetadata spotEnvFound (spotEnvFound.albumOf id0) ∧
      ((spotEnvFound.albumOf id0).label.length < 35 →
        (buildAlbumMetadata spotEnvFound albLongLabel).label =
          (spotEnvFound.albumOf id0).label) ∧
      (35 ≤ (spotEnvFound.albumOf id0).label.length →
        (buildAlbumMetadata spotEnvFound albLongLabel).label =
          (spotEnvFound.albumOf id0).artistName) :=
  ⟨(C10_label_fallback spotEnvFound 1 "q" 1
      (buildTrackMetadata spotEnvFound albLongLabel itemNight)
      (buildAlbumMetadata spotEnvFound albLongLabel)).1 rfl,
   (C10_label_fallback spotEnvFound 1 "q" 1
      (buildTrackMetadata spotEnvFound albLongLabel itemNight)
      (buildAlbumMetadata spotEnvFound albLongLabel)).2 rfl⟩

end BeatDroid
